import Mathlib

/-!
Verification development for the signify-browser-extension session manager
and signin registry.

The Session & Connection Manager is embedded from the `connect` /
`isConnected` implementation in `src/tests/unit/connect.test.ts`
(lines 104-137).  External collaborators (the signify client, the user /
config storage services, the browser alarm API) are modelled by an
environment record `AgentBehavior` describing the outcome of each external
call; every `await` of a fallible external call corresponds to a branch on
that environment.  JavaScript truthiness of optional strings (empty string
and `undefined`/`null` are falsy) is modelled by `truthyOpt`.

The browser alarm API (`browser.alarms`) follows the documented Chrome
semantics: `alarms.create(name, …)` replaces any existing alarm with the
same name, `alarms.clear(name)` removes it.  Alarm state is an association
list from alarm name to its `delayInMinutes` parameter.

Each operation returns, besides its result and the post state, the list of
observable external events it emitted (client construction, controller-id
persistence, alarm create/clear), so that temporal claims about ordering
of those effects can be stated.
-/

/-- Outcome of `client.state()` in the environment: the call either rejects
(`throws`) or resolves to a state whose `controller.state.i` field is
`controllerId` (`none` models a missing `i` property). -/
inductive StateResp where
  | throws : StateResp
  | returns (controllerId : Option String) : StateResp
deriving DecidableEq, Repr

/-- Behaviour of the external collaborators during one scenario:
whether `signify.ready()` resolves, whether `client.connect()` resolves,
whether `userService.setControllerId` resolves, and what `client.state()`
does. -/
structure AgentBehavior where
  readyOk : Bool
  connectOk : Bool
  setControllerIdOk : Bool
  stateResp : StateResp
deriving DecidableEq, Repr

/-- A constructed `SignifyClient` handle, identified by the constructor
arguments `new SignifyClient(agentUrl, passcode, Tier.low)`. -/
structure Client where
  agentUrl : String
  passcode : String
deriving DecidableEq, Repr

/-- The mutable state visible to the session manager: the module-level
`_client` variable, the persisted credentials (passcode and agent url read
by `isConnected`, controller id written by `connect`), the set of scheduled
browser alarms, and a counter of how many clients have been constructed. -/
structure SState where
  client : Option Client
  storedPasscode : Option String
  storedAgentUrl : Option String
  persistedControllerId : Option (Option String)
  alarms : List (String × Nat)
  clientsConstructed : Nat
deriving DecidableEq, Repr

/-- Observable external events emitted by the session manager. -/
inductive Event where
  | connectCalled (agentUrl passcode : String) : Event
  | clientConstructed (agentUrl passcode : String) : Event
  | controllerIdPersisted (controllerId : Option String) : Event
  | alarmCreated (name : String) (delayInMinutes : Nat) : Event
  | alarmCleared (name : String) : Event
deriving DecidableEq, Repr

/-- Result of `connect`: the source returns `undefined` on success and the
object `{ error }` on failure (the whole body is wrapped in try/catch, so
`connect` never throws). -/
inductive ConnectResult where
  | ok : ConnectResult
  | err : ConnectResult
deriving DecidableEq, Repr

/-- `browser.alarms.create(name, delay)`: an alarm with the same name is
cancelled and replaced (Chrome alarm semantics). -/
def alarmReplace (alarms : List (String × Nat)) (name : String) (delay : Nat) :
    List (String × Nat) :=
  (name, delay) :: alarms.filter (fun a => a.1 != name)

/-- `browser.alarms.clear(name)`: removes the alarm with that name. -/
def alarmErase (alarms : List (String × Nat)) (name : String) :
    List (String × Nat) :=
  alarms.filter (fun a => a.1 != name)

/-- JavaScript truthiness of an optional string: `undefined`/`null` and the
empty string are falsy, every other string is truthy. -/
def truthyOpt : Option String → Bool
  | some v => v != ""
  | none => false

/-- Embedding of `connect(agentUrl, passcode)` from
`src/tests/unit/connect.test.ts:104-118`:
`await ready(); _client = new SignifyClient(agentUrl, passcode, Tier.low);`
`await _client.connect(); const state = await _client.state();`
`await setControllerId(state?.controller?.state?.i);`
`alarms.create("passcode-timeout", { delayInMinutes: 5 })`,
with the whole body in `try { … } catch { _client = null; return { error } }`.
Returns the result, the post state and the emitted external events. -/
def connect (env : AgentBehavior) (agentUrl passcode : String) (s : SState) :
    ConnectResult × SState × List Event :=
  if env.readyOk then
    let s1 : SState :=
      { s with client := some ⟨agentUrl, passcode⟩,
               clientsConstructed := s.clientsConstructed + 1 }
    let es1 : List Event :=
      [.connectCalled agentUrl passcode, .clientConstructed agentUrl passcode]
    if env.connectOk then
      match env.stateResp with
      | .throws => (.err, { s1 with client := none }, es1)
      | .returns i =>
        if env.setControllerIdOk then
          (.ok,
           { s1 with persistedControllerId := some i,
                     alarms := alarmReplace s1.alarms "passcode-timeout" 5 },
           es1 ++ [.controllerIdPersisted i, .alarmCreated "passcode-timeout" 5])
        else (.err, { s1 with client := none }, es1)
    else (.err, { s1 with client := none }, es1)
  else (.err, { s with client := none }, [.connectCalled agentUrl passcode])

/-- `await _client?.state()` inside the try block of `isConnected`: on a
null client the optional chaining yields `undefined` without calling (and
without throwing); on a live client the call either rejects (`.error`) or
resolves to the (optional) `controller.state.i` value. -/
def clientStateQuery (env : AgentBehavior) (c : Option Client) :
    Except Unit (Option (Option String)) :=
  match c with
  | none => .ok none
  | some _ =>
    match env.stateResp with
    | .throws => .error ()
    | .returns i => .ok (some i)

/-- The lazy-reconnect block of `isConnected`
(`src/tests/unit/connect.test.ts:123-128`): when the stored agent url and
passcode are truthy and `_client` is null, it awaits
`connect(url, passcode)` and then unconditionally clears and re-creates the
`"passcode-timeout"` alarm. -/
def reconnectStep (env : AgentBehavior) (s : SState) : SState × List Event :=
  if truthyOpt s.storedAgentUrl && truthyOpt s.storedPasscode && s.client.isNone then
    let r := connect env (s.storedAgentUrl.getD "") (s.storedPasscode.getD "") s
    ({ r.2.1 with
        alarms := alarmReplace (alarmErase r.2.1.alarms "passcode-timeout")
          "passcode-timeout" 5 },
     r.2.2 ++ [.alarmCleared "passcode-timeout",
               .alarmCreated "passcode-timeout" 5])
  else (s, [])

/-- Embedding of `isConnected()` from
`src/tests/unit/connect.test.ts:120-137`: reads the stored passcode and
agent url, runs the lazy-reconnect block, then inside try/catch queries
`_client?.state()` and returns `_client && state?.controller?.state?.i ?
true : false`; a rejection of the state query is caught and yields
`false`.  Total into `Bool`: every fallible call is either internally
caught (`connect`) or enclosed by this catch (`clientStateQuery`). -/
def isConnected (env : AgentBehavior) (s : SState) :
    Bool × SState × List Event :=
  let r := reconnectStep env s
  match clientStateQuery env r.1.client with
  | .error _ => (false, r.1, r.2)
  | .ok st => (r.1.client.isSome && truthyOpt (st.bind id), r.1, r.2)

/-- Initial session-manager state: no client, nothing stored, no alarms. -/
def sInit : SState :=
  { client := none, storedPasscode := none, storedAgentUrl := none,
    persistedControllerId := none, alarms := [], clientsConstructed := 0 }

/-- Environment in which every external call succeeds and `state()` reports
the controller id used by the test suite. -/
def envAllOk : AgentBehavior :=
  { readyOk := true, connectOk := true, setControllerIdOk := true,
    stateResp := .returns (some "test-controller-id") }

/-- Environment in which the handshake `client.connect()` rejects. -/
def envConnectFails : AgentBehavior :=
  { readyOk := true, connectOk := false, setControllerIdOk := true,
    stateResp := .returns (some "test-controller-id") }

/-- Environment in which `client.state()` rejects. -/
def envStateThrows : AgentBehavior :=
  { readyOk := true, connectOk := true, setControllerIdOk := true,
    stateResp := .throws }

/-- State with persisted credentials but no live client, as in the
reconnect tests. -/
def sStored : SState :=
  { client := none, storedPasscode := some "stored-passcode",
    storedAgentUrl := some "http://stored-url.com",
    persistedControllerId := none, alarms := [], clientsConstructed := 0 }

/-- State with a previously scheduled `"passcode-timeout"` alarm. -/
def sWithAlarm : SState :=
  { sInit with alarms := [("passcode-timeout", 5)] }

/-!
Small-step interleaving model for concurrent `connect` calls.

The extension runs on a single cooperative event loop: every `await` in
`connect` is a suspension point where another task may run.  A task
executing `connect` is therefore a sequence of atomic segments separated at
its four awaits (`ready()`, `client.connect()`, `client.state()`,
`setControllerId(…)`); shared state is the same `SState` as above.  The
program counter records which await the task is suspended on.
-/

/-- Program counter of one task executing `connect`: suspended on
`ready()`, on `client.connect()`, on `client.state()`, on
`setControllerId i`, or finished (success / caught error). -/
inductive PC where
  | waitReady : PC
  | waitConnect : PC
  | waitState : PC
  | waitPersist (controllerId : Option String) : PC
  | doneOk : PC
  | doneErr : PC
deriving DecidableEq, Repr

/-- One atomic segment of a `connect(agentUrl, passcode)` task: resume from
the await the program counter names, run the synchronous code up to the
next await (or to the end), and return the new shared state and program
counter.  Mirrors `connect` above segment by segment; on any rejection the
catch block runs (`_client = null`). -/
def stepTask (env : AgentBehavior) (agentUrl passcode : String)
    (s : SState) (pc : PC) : SState × PC :=
  match pc with
  | .waitReady =>
    if env.readyOk then
      ({ s with client := some ⟨agentUrl, passcode⟩,
                clientsConstructed := s.clientsConstructed + 1 },
       .waitConnect)
    else ({ s with client := none }, .doneErr)
  | .waitConnect =>
    if env.connectOk then (s, .waitState)
    else ({ s with client := none }, .doneErr)
  | .waitState =>
    match env.stateResp with
    | .throws => ({ s with client := none }, .doneErr)
    | .returns i => (s, .waitPersist i)
  | .waitPersist i =>
    if env.setControllerIdOk then
      ({ s with persistedControllerId := some i,
                alarms := alarmReplace s.alarms "passcode-timeout" 5 },
       .doneOk)
    else ({ s with client := none }, .doneErr)
  | .doneOk => (s, .doneOk)
  | .doneErr => (s, .doneErr)

/-- Two tasks running `connect` concurrently over the shared state. -/
structure Sys where
  shared : SState
  pc1 : PC
  pc2 : PC
deriving DecidableEq, Repr

/-- Scheduler step: run one atomic segment of task 1 (`true`) or task 2
(`false`).  Both tasks call `connect` with the same credentials. -/
def stepSys (env : AgentBehavior) (agentUrl passcode : String)
    (sys : Sys) (which : Bool) : Sys :=
  if which then
    let r := stepTask env agentUrl passcode sys.shared sys.pc1
    { shared := r.1, pc1 := r.2, pc2 := sys.pc2 }
  else
    let r := stepTask env agentUrl passcode sys.shared sys.pc2
    { shared := r.1, pc1 := sys.pc1, pc2 := r.2 }

/-- Run two concurrently issued `connect` calls with identical credentials
from the initial state under an arbitrary interleaving (schedule). -/
def runTwoConnects (env : AgentBehavior) (agentUrl passcode : String)
    (sched : List Bool) : Sys :=
  sched.foldl (stepSys env agentUrl passcode)
    { shared := sInit, pc1 := .waitReady, pc2 := .waitReady }

/-- Number of clients a task with this program counter has constructed:
the construction `_client = new SignifyClient(…)` happens in the segment
that leaves `waitReady`. -/
def constructedOf : PC → Nat
  | .waitReady => 0
  | _ => 1

/-- A fully interleaved schedule alternating the two tasks. -/
def schedAlternating : List Bool :=
  [true, false, true, false, true, false, true, false]

/-!
Signin Registry and popup UI.

`deleteSignin` / `updateAutoSignin` are embedded from
`src/src/components/signinList.tsx:30-80`: each awaits the mutation
response from the background (`sendMessage`), and only afterwards — and
only when the response reports a change — updates the component state and
fires the tab notification (`get-tab-state` request, then `reload-state`
notification).  The background handlers themselves are not part of the
source sample, so the mutation response is an environment input; the
`get-tab-state` round trip may reject (no content script in the active
tab), in which case the callback dies and no `reload-state` is sent.
-/

/-- A signin record as used by the popup components
(`signin.id`, `signin.domain`, `signin.identifier.name`,
`signin.autoSignin`, `signin.updatedAt`). -/
structure ISignin where
  id : String
  domain : String
  identifierName : String
  autoSignin : Bool
  updatedAt : Nat
deriving DecidableEq, Repr

/-- Modelled from the spec: the Signin Registry's `delete(id)` operation
(§4.2), whose background handler is not in the source sample (only its UI
caller `deleteSignin` is): it "removes the record with matching `id`;
idempotent — deleting a non-existent `id` returns `success=false` and the
unchanged collection, not an error". -/
def deleteRecord (signins : List ISignin) (i : String) :
    Bool × List ISignin :=
  if signins.any (fun r => r.id == i) then
    (true, signins.filter (fun r => r.id != i))
  else (false, signins)

/-- Observable events emitted by the popup mutation handlers, in order. -/
inductive UIEvent where
  | mutationRequested (kind : String) (payload : String) : UIEvent
  | mutationResponded (kind : String) : UIEvent
  | tabStateRequested : UIEvent
  | reloadStateSent (mode : Option String) : UIEvent
deriving DecidableEq, Repr

/-- Environment of the popup component: the background's response to the
delete mutation (`none` = `{ error }` payload, so `data` is undefined), the
response to the auto-signin update, and the outcome of the `get-tab-state`
request to the active tab (`.error` = rejection, e.g. no content script). -/
structure UIEnv where
  deleteResp : Option (Bool × List ISignin)
  updateResp : Option (List ISignin)
  tabState : Except Unit (Option String)

/-- The tab-notification block shared by both mutation handlers
(`signinList.tsx:39-52` and `65-78`): query the active tab, await
`get-tab-state`, then send `reload-state` with the returned mode.  If the
`get-tab-state` request rejects, the async callback dies before sending
`reload-state`; the rejection propagates nowhere else. -/
def notifyActiveTab (env : UIEnv) : List UIEvent :=
  match env.tabState with
  | .error _ => [.tabStateRequested]
  | .ok mode => [.tabStateRequested, .reloadStateSent mode]

/-- Embedding of `deleteSignin(id)` from `signinList.tsx:30-54`: awaits the
delete mutation; if `data?.isDeleted` is truthy, sets the component's
signin list to `data.signins` and fires the tab notification; otherwise
leaves the component state unchanged.  Returns the component's signin list
and the emitted events. -/
def deleteSignin (env : UIEnv) (i : String) (signins : List ISignin) :
    List ISignin × List UIEvent :=
  match env.deleteResp with
  | some (isDeleted, newSignins) =>
    if isDeleted then
      (newSignins,
       [.mutationRequested "delete-signin" i,
        .mutationResponded "delete-signin"] ++ notifyActiveTab env)
    else
      (signins,
       [.mutationRequested "delete-signin" i,
        .mutationResponded "delete-signin"])
  | none =>
    (signins,
     [.mutationRequested "delete-signin" i,
      .mutationResponded "delete-signin"])

/-- Embedding of `updateAutoSignin(signin)` from `signinList.tsx:56-80`:
awaits the update mutation; if `data?.signins` is present (any array is
truthy in JavaScript), sets the component state and fires the tab
notification. -/
def updateAutoSignin (env : UIEnv) (sg : ISignin) (signins : List ISignin) :
    List ISignin × List UIEvent :=
  match env.updateResp with
  | some newSignins =>
    (newSignins,
     [.mutationRequested "update-auto-signin" sg.id,
      .mutationResponded "update-auto-signin"] ++ notifyActiveTab env)
  | none =>
    (signins,
     [.mutationRequested "update-auto-signin" sg.id,
      .mutationResponded "update-auto-signin"])

/-- Decides that no `reload-state` notification occurs before the mutation
response in an event list. -/
def noReloadBeforeResponse : List UIEvent → Bool
  | [] => true
  | UIEvent.mutationResponded _ :: _ => true
  | UIEvent.reloadStateSent _ :: _ => false
  | _ :: es => noReloadBeforeResponse es

/-- The message sent by `chrome.runtime.sendMessage` in `handleClick`
(`src/unnamed/part_000:5-17`). -/
structure AuthMessage where
  msgType : String
  subtype : String
  dataSignin : String
deriving DecidableEq, Repr

/-- Embedding of `handleClick` of the `SigninItem` component
(`src/unnamed/part_000:5-17`): the closure rendered for the record
`signin` sends `{ type: "authentication", subtype: "get-signed-headers",
data: { signin: "selectedAID" } }`. -/
def handleClick (signin : ISignin) : AuthMessage :=
  { msgType := "authentication", subtype := "get-signed-headers",
    dataSignin := "selectedAID" }

/-- Demo collection used by concrete witnesses. -/
def demoSignins : List ISignin :=
  [{ id := "a", domain := "x.com", identifierName := "id-a",
     autoSignin := false, updatedAt := 0 },
   { id := "b", domain := "y.com", identifierName := "id-b",
     autoSignin := true, updatedAt := 1 }]

/-- Popup environment whose tab notification fails (`get-tab-state`
rejects: no content script in the active tab). -/
def uiEnvNotifyFails : UIEnv :=
  { deleteResp := some (true, []), updateResp := some [],
    tabState := .error () }

/-- Popup environment whose tab notification succeeds. -/
def uiEnvNotifyOk : UIEnv :=
  { deleteResp := some (true, []), updateResp := some [],
    tabState := .ok (some "signify") }

/-- A concrete signin record. -/
def demoSignin : ISignin :=
  { id := "a", domain := "x.com", identifierName := "id-a",
    autoSignin := false, updatedAt := 0 }

/-- State with a live client handle, as after a successful `connect`. -/
def sClientLive : SState :=
  { sInit with client := some ⟨"http://example.com/agent", "test-passcode"⟩ }

/-- The state reached by a first successful `connect` from the initial
state: a live handle exists and one client has been constructed. -/
def sAfterFirst : SState :=
  (connect envAllOk "http://example.com/agent" "test-passcode" sInit).2.1

/-! Helper lemmas (shared between claim proofs). -/

/-- Filtering a name away and then filtering for that name yields nothing. -/
theorem filter_erase_then_find (l : List (String × Nat)) (n : String) :
    ((l.filter (fun a => a.1 != n)).filter (fun a => a.1 == n)) = [] := by
  rw [List.filter_filter]
  simp

/-- After `alarmReplace`, exactly one alarm with the replaced name is
scheduled. -/
theorem alarmReplace_unique (l : List (String × Nat)) (n : String) (d : Nat) :
    ((alarmReplace l n d).filter (fun a => a.1 == n)).length = 1 := by
  simp [alarmReplace, List.filter, filter_erase_then_find]

/-- The event list of a `connect` call starts with its invocation event. -/
theorem connect_events_head (env : AgentBehavior) (u p : String) (s : SState) :
    ∃ rest, (connect env u p s).2.2 = Event.connectCalled u p :: rest := by
  rcases env with ⟨ro, co, so, sr⟩
  cases ro <;> cases co <;> cases so <;> cases sr <;>
    simp [connect]

/-- Characterization of `isConnected`'s Boolean result: true exactly when
a client handle is live after the (possible) reconnect and the state query
resolves to a non-empty controller identifier. -/
theorem isConnected_true_iff (env : AgentBehavior) (s : SState) :
    (isConnected env s).1 = true ↔
      ((isConnected env s).2.1.client.isSome = true ∧
        ∃ v, env.stateResp = .returns (some v) ∧ v ≠ "") := by
  rcases hc : (reconnectStep env s).1.client with _ | c
  · rcases hsr : env.stateResp with _ | i <;>
      simp [isConnected, clientStateQuery, hc, hsr]
  · rcases hsr : env.stateResp with _ | i
    · simp [isConnected, clientStateQuery, hc, hsr]
    · rcases i with _ | v <;>
        simp [isConnected, clientStateQuery, hc, hsr, truthyOpt]

/-- `isConnected` emits exactly the events of its reconnect block (the
final state query emits no event of its own). -/
theorem isConnected_events (env : AgentBehavior) (s : SState) :
    (isConnected env s).2.2 = (reconnectStep env s).2 := by
  cases h : clientStateQuery env (reconnectStep env s).1.client <;>
    simp [isConnected, h]

/-- `isConnected` returns the state produced by its reconnect block. -/
theorem isConnected_state (env : AgentBehavior) (s : SState) :
    (isConnected env s).2.1 = (reconnectStep env s).1 := by
  cases h : clientStateQuery env (reconnectStep env s).1.client <;>
    simp [isConnected, h]

/-- When the stored url and passcode are truthy and no client is live, the
reconnect block runs: it calls `connect` with the stored credentials and
then clears and re-creates the `"passcode-timeout"` alarm. -/
theorem reconnectStep_taken (env : AgentBehavior) (s : SState)
    (hu : truthyOpt s.storedAgentUrl = true)
    (hp : truthyOpt s.storedPasscode = true)
    (hc : s.client = none) :
    reconnectStep env s =
      ({ (connect env (s.storedAgentUrl.getD "") (s.storedPasscode.getD "") s).2.1 with
          alarms := alarmReplace
            (alarmErase
              (connect env (s.storedAgentUrl.getD "") (s.storedPasscode.getD "") s).2.1.alarms
              "passcode-timeout")
            "passcode-timeout" 5 },
       (connect env (s.storedAgentUrl.getD "") (s.storedPasscode.getD "") s).2.2 ++
         [Event.alarmCleared "passcode-timeout",
          Event.alarmCreated "passcode-timeout" 5]) := by
  simp [reconnectStep, hu, hp, hc]

/-- One task segment keeps the construction count aligned with the task's
progress past the construction point, provided `ready()` resolves. -/
theorem stepTask_count (env : AgentBehavior) (u p : String) (s : SState)
    (pc : PC) (h : env.readyOk = true) :
    (stepTask env u p s pc).1.clientsConstructed + constructedOf pc =
      s.clientsConstructed + constructedOf (stepTask env u p s pc).2 := by
  rcases env with ⟨ro, co, so, sr⟩
  cases ro
  · cases h
  · cases co <;> cases so <;> cases sr <;> cases pc <;>
      simp [stepTask, constructedOf]

/-- A scheduler step preserves the counting invariant of the two-task
system. -/
theorem stepSys_count (env : AgentBehavior) (u p : String)
    (h : env.readyOk = true) (sys : Sys) (which : Bool)
    (hI : sys.shared.clientsConstructed =
      constructedOf sys.pc1 + constructedOf sys.pc2) :
    (stepSys env u p sys which).shared.clientsConstructed =
      constructedOf (stepSys env u p sys which).pc1 +
        constructedOf (stepSys env u p sys which).pc2 := by
  cases which
  · have := stepTask_count env u p sys.shared sys.pc2 h
    simp only [stepSys, Bool.false_eq_true, if_false]
    omega
  · have := stepTask_count env u p sys.shared sys.pc1 h
    simp only [stepSys, if_true]
    omega

/-- The counting invariant holds after running any schedule. -/
theorem foldl_stepSys_count (env : AgentBehavior) (u p : String)
    (h : env.readyOk = true) :
    ∀ (sched : List Bool) (sys : Sys),
      sys.shared.clientsConstructed =
        constructedOf sys.pc1 + constructedOf sys.pc2 →
      (sched.foldl (stepSys env u p) sys).shared.clientsConstructed =
        constructedOf (sched.foldl (stepSys env u p) sys).pc1 +
          constructedOf (sched.foldl (stepSys env u p) sys).pc2 := by
  intro sched
  induction sched with
  | nil => intro sys hI; simpa using hI
  | cons b bs ih =>
    intro sys hI
    simpa [List.foldl_cons] using
      ih (stepSys env u p sys b) (stepSys_count env u p h sys b hI)

/-- A task that is past (or at) any await after `ready()` has constructed
its client. -/
theorem constructedOf_eq_one (pc : PC) (h : pc ≠ PC.waitReady) :
    constructedOf pc = 1 := by
  cases pc <;> simp_all [constructedOf]

/-! Claim theorems. -/

/-- Claim C1, corrected.  The claim asserts single-flight: concurrent
`connect` calls with identical valid credentials create exactly one client
handle, later callers awaiting the in-flight attempt.  The code has no
mutual-exclusion flag or in-flight promise, so this fails (see
`c1_counterexample`).  Amended: under every interleaving of two
concurrently issued `connect` calls with identical credentials whose
`ready()` resolves, the number of constructed clients equals the number of
tasks that progressed past `ready()` — in particular two, not one, once
both calls progressed — because each call unconditionally executes
`_client = new SignifyClient(…)`. -/
theorem c1_connect_not_single_flight (env : AgentBehavior) (u p : String)
    (sched : List Bool) (h : env.readyOk = true) :
    (runTwoConnects env u p sched).shared.clientsConstructed =
      constructedOf (runTwoConnects env u p sched).pc1 +
        constructedOf (runTwoConnects env u p sched).pc2 ∧
    ((runTwoConnects env u p sched).pc1 ≠ PC.waitReady →
      (runTwoConnects env u p sched).pc2 ≠ PC.waitReady →
      (runTwoConnects env u p sched).shared.clientsConstructed = 2) := by
  have hinv := foldl_stepSys_count env u p h sched
    { shared := sInit, pc1 := .waitReady, pc2 := .waitReady } rfl
  refine ⟨hinv, fun h1 h2 => ?_⟩
  rw [runTwoConnects] at *
  rw [hinv, constructedOf_eq_one _ h1, constructedOf_eq_one _ h2]

/-- Witness for C1's amended theorem at a concrete interleaving. -/
theorem c1_witness :
    envAllOk.readyOk = true ∧
    ((runTwoConnects envAllOk "http://example.com/agent" "test-passcode"
        schedAlternating).shared.clientsConstructed =
      constructedOf (runTwoConnects envAllOk "http://example.com/agent"
        "test-passcode" schedAlternating).pc1 +
        constructedOf (runTwoConnects envAllOk "http://example.com/agent"
          "test-passcode" schedAlternating).pc2 ∧
    ((runTwoConnects envAllOk "http://example.com/agent" "test-passcode"
        schedAlternating).pc1 ≠ PC.waitReady →
      (runTwoConnects envAllOk "http://example.com/agent" "test-passcode"
        schedAlternating).pc2 ≠ PC.waitReady →
      (runTwoConnects envAllOk "http://example.com/agent" "test-passcode"
        schedAlternating).shared.clientsConstructed = 2)) :=
  ⟨rfl, c1_connect_not_single_flight envAllOk "http://example.com/agent"
    "test-passcode" schedAlternating rfl⟩

/-- Counterexample to claim C1 as stated: two concurrently issued
`connect` calls with identical valid credentials, run under an alternating
interleaving, both complete successfully and construct two client handles,
not one. -/
theorem c1_counterexample :
    (runTwoConnects envAllOk "http://example.com/agent" "test-passcode"
        schedAlternating).pc1 = PC.doneOk ∧
    (runTwoConnects envAllOk "http://example.com/agent" "test-passcode"
        schedAlternating).pc2 = PC.doneOk ∧
    (runTwoConnects envAllOk "http://example.com/agent" "test-passcode"
        schedAlternating).shared.clientsConstructed = 2 := by
  refine ⟨rfl, rfl, rfl⟩

/-- Claim C2, confirmed.  `isConnected()` returns `true` exactly when a
client handle exists (after the possible lazy reconnect) and the state
query on that handle resolved to a non-empty controller identifier
(`_client && state?.controller?.state?.i ? true : false`); in every other
case — no handle, state query rejected, identifier missing or empty — it
returns `false`. -/
theorem c2_isConnected_true_iff_handle_and_id (env : AgentBehavior)
    (s : SState) :
    (isConnected env s).1 = true ↔
      ((isConnected env s).2.1.client.isSome = true ∧
        ∃ v, env.stateResp = .returns (some v) ∧ v ≠ "") :=
  isConnected_true_iff env s

/-- Claim C3, confirmed.  Whenever any step of `connect` fails — `ready()`,
client handshake, state read-back, or controller-id persistence — the catch
block clears the in-memory client handle and returns the typed error value
`{ error }` (the embedding is total: nothing escapes the try/catch), and
the persisted credentials (stored passcode, stored agent url, persisted
controller id) are unchanged. -/
theorem c3_connect_failure_clears_handle (env : AgentBehavior)
    (u p : String) (s : SState)
    (h : (connect env u p s).1 = ConnectResult.err) :
    (connect env u p s).2.1.client = none ∧
    (connect env u p s).2.1.persistedControllerId = s.persistedControllerId ∧
    (connect env u p s).2.1.storedPasscode = s.storedPasscode ∧
    (connect env u p s).2.1.storedAgentUrl = s.storedAgentUrl := by
  rcases env with ⟨ro, co, so, sr⟩
  cases ro <;> cases co <;> cases so <;> cases sr <;>
    simp_all [connect]

/-- Witness for C3: a rejected handshake leaves no handle and the
persisted credentials untouched. -/
theorem c3_witness :
    (connect envConnectFails "http://example.com/agent" "test-passcode"
        sInit).1 = ConnectResult.err ∧
    ((connect envConnectFails "http://example.com/agent" "test-passcode"
        sInit).2.1.client = none ∧
      (connect envConnectFails "http://example.com/agent" "test-passcode"
        sInit).2.1.persistedControllerId = sInit.persistedControllerId ∧
      (connect envConnectFails "http://example.com/agent" "test-passcode"
        sInit).2.1.storedPasscode = sInit.storedPasscode ∧
      (connect envConnectFails "http://example.com/agent" "test-passcode"
        sInit).2.1.storedAgentUrl = sInit.storedAgentUrl) :=
  ⟨rfl, c3_connect_failure_clears_handle envConnectFails
    "http://example.com/agent" "test-passcode" sInit rfl⟩

/-- Claim C4, confirmed.  `isConnected` never raises: the embedding is a
total function into `Bool` (every fallible call is inside a catch), and
whenever the client state query rejects the rejection is caught and the
result is `false`, for every state of the client handle and of the stored
credentials. -/
theorem c4_isConnected_state_error_false (env : AgentBehavior) (s : SState)
    (h : env.stateResp = StateResp.throws) :
    (isConnected env s).1 = false := by
  rcases hc : (reconnectStep env s).1.client with _ | c <;>
    simp [isConnected, clientStateQuery, hc, h]

/-- Witness for C4: with a live handle whose `state()` rejects,
`isConnected` returns `false`. -/
theorem c4_witness :
    envStateThrows.stateResp = StateResp.throws ∧
    (isConnected envStateThrows sClientLive).1 = false :=
  ⟨rfl, c4_isConnected_state_error_false envStateThrows sClientLive rfl⟩

/-- A fully successful `connect` leaves the newly constructed client as
the live handle. -/
theorem connect_allOk_client (env : AgentBehavior) (u p : String)
    (s : SState) (hro : env.readyOk = true) (hco : env.connectOk = true)
    (hso : env.setControllerIdOk = true) (i : Option String)
    (hsr : env.stateResp = .returns i) :
    (connect env u p s).2.1.client = some ⟨u, p⟩ := by
  rcases env with ⟨ro, co, so, sr⟩
  cases ro <;> cases co <;> cases so <;> cases sr <;>
    simp_all [connect]

/-- Claim C5, corrected.  The claim asserts clear-then-create for every
successful connect.  Plain `connect` only calls `alarms.create` and never
`alarms.clear` (see `c5_counterexample`); the explicit clear happens only
on `isConnected`'s reconnect path.  Amended: after every successful
`connect` exactly one alarm named `"passcode-timeout"` is scheduled —
because `alarms.create` with an existing name replaces it, scheduling is
never additive — but no clear of that name is emitted by `connect`
itself. -/
theorem c5_connect_success_single_alarm (env : AgentBehavior)
    (u p : String) (s : SState)
    (h : (connect env u p s).1 = ConnectResult.ok) :
    (((connect env u p s).2.1.alarms.filter
        (fun a => a.1 == "passcode-timeout")).length = 1) ∧
    (∀ e ∈ (connect env u p s).2.2,
      e ≠ Event.alarmCleared "passcode-timeout") := by
  rcases env with ⟨ro, co, so, sr⟩
  cases ro <;> cases co <;> cases so <;> cases sr <;>
    simp_all [connect, alarmReplace_unique]

/-- Witness for C5's amended theorem: a successful connect over a state
that already holds a `"passcode-timeout"` alarm. -/
theorem c5_witness :
    (connect envAllOk "http://example.com/agent" "test-passcode"
        sWithAlarm).1 = ConnectResult.ok ∧
    ((((connect envAllOk "http://example.com/agent" "test-passcode"
        sWithAlarm).2.1.alarms.filter
          (fun a => a.1 == "passcode-timeout")).length = 1) ∧
      (∀ e ∈ (connect envAllOk "http://example.com/agent" "test-passcode"
          sWithAlarm).2.2,
        e ≠ Event.alarmCleared "passcode-timeout")) :=
  ⟨rfl, c5_connect_success_single_alarm envAllOk "http://example.com/agent"
    "test-passcode" sWithAlarm rfl⟩

/-- Counterexample to claim C5 as stated: a `connect` run from a state
with a previously scheduled `"passcode-timeout"` alarm succeeds, yet its
emitted events contain no `alarms.clear` at all — the previously scheduled
alarm is not cleared before the new one is created. -/
theorem c5_counterexample :
    sWithAlarm.alarms = [("passcode-timeout", 5)] ∧
    (connect envAllOk "http://example.com/agent" "test-passcode"
        sWithAlarm).1 = ConnectResult.ok ∧
    (connect envAllOk "http://example.com/agent" "test-passcode"
        sWithAlarm).2.2 =
      [Event.connectCalled "http://example.com/agent" "test-passcode",
       Event.clientConstructed "http://example.com/agent" "test-passcode",
       Event.controllerIdPersisted (some "test-controller-id"),
       Event.alarmCreated "passcode-timeout" 5] ∧
    ((connect envAllOk "http://example.com/agent" "test-passcode"
        sWithAlarm).2.2.filter
      (fun e => e == Event.alarmCleared "passcode-timeout")) = [] :=
  ⟨rfl, rfl, rfl, rfl⟩

/-- Claim C6, corrected.  The claim says the reconnect path of
`isConnected` re-arms the alarm only on success of the reconnect; in the
code the clear-and-recreate runs unconditionally after `connect` returns,
even when it failed (see `c6_counterexample`).  Amended: when a truthy
agent url and passcode are stored and no client handle is live,
`isConnected` invokes `connect` with the stored credentials and then
re-arms the `"passcode-timeout"` alarm (clear then recreate) regardless of
the outcome of that reconnect; when every step of the reconnect succeeds
with a non-empty controller identifier, it returns `true`. -/
theorem c6_reconnect_rearms_unconditionally (env : AgentBehavior)
    (s : SState) (hu : truthyOpt s.storedAgentUrl = true)
    (hp : truthyOpt s.storedPasscode = true) (hc : s.client = none) :
    (isConnected env s).2.2 =
      (connect env (s.storedAgentUrl.getD "") (s.storedPasscode.getD "")
          s).2.2 ++
        [Event.alarmCleared "passcode-timeout",
         Event.alarmCreated "passcode-timeout" 5] ∧
    (∃ rest, (isConnected env s).2.2 =
      Event.connectCalled (s.storedAgentUrl.getD "")
        (s.storedPasscode.getD "") :: rest) ∧
    (∀ v, env.readyOk = true → env.connectOk = true →
      env.setControllerIdOk = true → env.stateResp = .returns (some v) →
      v ≠ "" → (isConnected env s).1 = true) := by
  have htr : (isConnected env s).2.2 =
      (connect env (s.storedAgentUrl.getD "") (s.storedPasscode.getD "")
          s).2.2 ++
        [Event.alarmCleared "passcode-timeout",
         Event.alarmCreated "passcode-timeout" 5] := by
    rw [isConnected_events, reconnectStep_taken env s hu hp hc]
  refine ⟨htr, ?_, ?_⟩
  · obtain ⟨rest, hr⟩ := connect_events_head env (s.storedAgentUrl.getD "")
      (s.storedPasscode.getD "") s
    exact ⟨rest ++ [Event.alarmCleared "passcode-timeout",
      Event.alarmCreated "passcode-timeout" 5], by rw [htr, hr]; simp⟩
  · intro v hro hco hso hsr hv
    rw [isConnected_true_iff]
    refine ⟨?_, v, hsr, hv⟩
    rw [isConnected_state, reconnectStep_taken env s hu hp hc]
    simp [connect_allOk_client env _ _ s hro hco hso _ hsr]

/-- Witness for C6's amended theorem on the stored-credentials state with
an all-successful environment. -/
theorem c6_witness :
    truthyOpt sStored.storedAgentUrl = true ∧
    truthyOpt sStored.storedPasscode = true ∧
    sStored.client = none ∧
    ((isConnected envAllOk sStored).2.2 =
      (connect envAllOk (sStored.storedAgentUrl.getD "")
          (sStored.storedPasscode.getD "") sStored).2.2 ++
        [Event.alarmCleared "passcode-timeout",
         Event.alarmCreated "passcode-timeout" 5] ∧
    (∃ rest, (isConnected envAllOk sStored).2.2 =
      Event.connectCalled (sStored.storedAgentUrl.getD "")
        (sStored.storedPasscode.getD "") :: rest) ∧
    (∀ v, envAllOk.readyOk = true → envAllOk.connectOk = true →
      envAllOk.setControllerIdOk = true →
      envAllOk.stateResp = .returns (some v) → v ≠ "" →
      (isConnected envAllOk sStored).1 = true)) :=
  ⟨rfl, rfl, rfl,
    c6_reconnect_rearms_unconditionally envAllOk sStored rfl rfl rfl⟩

/-- Counterexample to claim C6 as stated: with stored credentials and no
live handle, the reconnect attempt fails (`client.connect()` rejects), yet
the `"passcode-timeout"` alarm is still cleared and re-created — the
re-arm does not happen only on success — and `isConnected` returns
`false`. -/
theorem c6_counterexample :
    (connect envConnectFails "http://stored-url.com" "stored-passcode"
        sStored).1 = ConnectResult.err ∧
    (isConnected envConnectFails sStored).1 = false ∧
    (isConnected envConnectFails sStored).2.2 =
      [Event.connectCalled "http://stored-url.com" "stored-passcode",
       Event.clientConstructed "http://stored-url.com" "stored-passcode",
       Event.alarmCleared "passcode-timeout",
       Event.alarmCreated "passcode-timeout" 5] ∧
    (isConnected envConnectFails sStored).2.1.alarms =
      [("passcode-timeout", 5)] :=
  ⟨rfl, rfl, rfl, rfl⟩

/-- Claim C7, corrected.  The claim's second half — a connect attempt made
while a handle exists reuses it — fails: `connect` unconditionally executes
`_client = new SignifyClient(…)` (see `c7_counterexample`).  Amended: the
session state stores at most one live handle at any time (the single
`_client` variable: after any `connect` it is either `none` or exactly the
newly constructed client), but every `connect` whose `ready()` resolves
constructs a fresh client — incrementing the construction count — instead
of reusing an existing handle. -/
theorem c7_connect_replaces_handle (env : AgentBehavior) (u p : String)
    (s : SState) (h : env.readyOk = true) :
    ((connect env u p s).2.1.client = none ∨
      (connect env u p s).2.1.client = some ⟨u, p⟩) ∧
    (connect env u p s).2.1.clientsConstructed = s.clientsConstructed + 1 := by
  rcases env with ⟨ro, co, so, sr⟩
  cases ro
  · cases h
  · cases co <;> cases so <;> cases sr <;> simp [connect]

/-- Witness for C7's amended theorem. -/
theorem c7_witness :
    envAllOk.readyOk = true ∧
    (((connect envAllOk "http://example.com/agent" "test-passcode"
        sInit).2.1.client = none ∨
      (connect envAllOk "http://example.com/agent" "test-passcode"
        sInit).2.1.client =
        some ⟨"http://example.com/agent", "test-passcode"⟩) ∧
    (connect envAllOk "http://example.com/agent" "test-passcode"
        sInit).2.1.clientsConstructed = sInit.clientsConstructed + 1) :=
  ⟨rfl, c7_connect_replaces_handle envAllOk "http://example.com/agent"
    "test-passcode" sInit rfl⟩

/-- Counterexample to claim C7 as stated: after a successful `connect` a
live handle exists, yet a second `connect` attempt constructs a second
client (the construction count reaches 2) and replaces the handle instead
of reusing it. -/
theorem c7_counterexample :
    sAfterFirst.client =
      some ⟨"http://example.com/agent", "test-passcode"⟩ ∧
    (connect envAllOk "http://other.example.com/agent" "test-passcode"
        sAfterFirst).2.1.clientsConstructed = 2 ∧
    (connect envAllOk "http://other.example.com/agent" "test-passcode"
        sAfterFirst).2.1.client =
      some ⟨"http://other.example.com/agent", "test-passcode"⟩ ∧
    (connect envAllOk "http://other.example.com/agent" "test-passcode"
        sAfterFirst).2.1.client ≠ sAfterFirst.client := by
  refine ⟨rfl, rfl, rfl, by decide⟩

/-- A collection in which no record carries `i` is returned unchanged by
`deleteRecord`, with `success = false`. -/
theorem deleteRecord_absent (signins : List ISignin) (i : String)
    (h : signins.all (fun r => r.id != i) = true) :
    deleteRecord signins i = (false, signins) := by
  have hany : signins.any (fun r => r.id == i) = false := by
    rw [List.any_eq_false]
    intro r hr
    have := List.all_eq_true.mp h r hr
    simpa using this
  simp [deleteRecord, hany]

/-- After deleting `i`, no record with id `i` remains. -/
theorem deleteRecord_removes (signins : List ISignin) (i : String) :
    ((signins.filter (fun r => r.id != i)).any (fun r => r.id == i)) =
      false := by
  rw [List.any_eq_false]
  intro r hr
  rw [List.mem_filter] at hr
  simpa using hr.2

/-- Claim C8, confirmed.  `delete(id)` is idempotent: deleting an id that
is absent from the collection returns `success = false` together with the
unchanged collection, and a second delete of the same id (after a first
delete, whether or not it removed anything) likewise returns
`success = false` and leaves the collection unchanged; the operation has no
error outcome (it is total into `Bool × List`). -/
theorem c8_deleteRecord_idempotent (signins : List ISignin) (i : String) :
    (signins.all (fun r => r.id != i) = true →
      deleteRecord signins i = (false, signins)) ∧
    deleteRecord (deleteRecord signins i).2 i =
      (false, (deleteRecord signins i).2) := by
  refine ⟨deleteRecord_absent signins i, ?_⟩
  by_cases hp : signins.any (fun r => r.id == i) = true
  · simp [deleteRecord, hp, deleteRecord_removes]
  · have hp' : signins.any (fun r => r.id == i) = false :=
      Bool.eq_false_iff.mpr hp
    simp [deleteRecord, hp']

/-- Witness for C8 on a concrete collection: an absent id, and a repeated
delete of a present id. -/
theorem c8_witness :
    (demoSignins.all (fun r => r.id != "absent-id") = true →
      deleteRecord demoSignins "absent-id" = (false, demoSignins)) ∧
    demoSignins.all (fun r => r.id != "absent-id") = true ∧
    deleteRecord demoSignins "absent-id" = (false, demoSignins) ∧
    deleteRecord (deleteRecord demoSignins "a").2 "a" =
      (false, (deleteRecord demoSignins "a").2) :=
  ⟨(c8_deleteRecord_idempotent demoSignins "absent-id").1, by decide,
    (c8_deleteRecord_idempotent demoSignins "absent-id").1 (by decide),
    (c8_deleteRecord_idempotent demoSignins "a").2⟩

/-- Claim C9, confirmed.  For both popup mutations (`deleteSignin` and
`updateAutoSignin`), the `reload-state` notification is emitted only after
the mutation response has been received, and the outcome of the tab
notification (including its failure: a rejected `get-tab-state`) never
changes the mutation's result — two environments agreeing on the mutation
responses yield the same resulting signin list. -/
theorem c9_reload_after_mutation (env env' : UIEnv) (i : String)
    (sg : ISignin) (signins : List ISignin)
    (hd : env.deleteResp = env'.deleteResp)
    (hu : env.updateResp = env'.updateResp) :
    noReloadBeforeResponse (deleteSignin env i signins).2 = true ∧
    noReloadBeforeResponse (updateAutoSignin env sg signins).2 = true ∧
    (deleteSignin env i signins).1 = (deleteSignin env' i signins).1 ∧
    (updateAutoSignin env sg signins).1 =
      (updateAutoSignin env' sg signins).1 := by
  refine ⟨?_, ?_, ?_, ?_⟩
  · rcases h : env.deleteResp with _ | ⟨b, l⟩
    · simp [deleteSignin, h, noReloadBeforeResponse]
    · cases b <;> simp [deleteSignin, h, noReloadBeforeResponse]
  · rcases h : env.updateResp with _ | l <;>
      simp [updateAutoSignin, h, noReloadBeforeResponse]
  · rcases h : env.deleteResp with _ | ⟨b, l⟩
    · simp [deleteSignin, h, ← hd]
    · cases b <;> simp [deleteSignin, h, ← hd]
  · rcases h : env.updateResp with _ | l <;>
      simp [updateAutoSignin, h, ← hu]

/-- Witness for C9: one environment whose tab notification fails, one
whose notification succeeds; the mutation results agree. -/
theorem c9_witness :
    uiEnvNotifyFails.deleteResp = uiEnvNotifyOk.deleteResp ∧
    uiEnvNotifyFails.updateResp = uiEnvNotifyOk.updateResp ∧
    (noReloadBeforeResponse
        (deleteSignin uiEnvNotifyFails "a" demoSignins).2 = true ∧
      noReloadBeforeResponse
        (updateAutoSignin uiEnvNotifyFails demoSignin demoSignins).2 = true ∧
      (deleteSignin uiEnvNotifyFails "a" demoSignins).1 =
        (deleteSignin uiEnvNotifyOk "a" demoSignins).1 ∧
      (updateAutoSignin uiEnvNotifyFails demoSignin demoSignins).1 =
        (updateAutoSignin uiEnvNotifyOk demoSignin demoSignins).1) :=
  ⟨rfl, rfl, c9_reload_after_mutation uiEnvNotifyFails uiEnvNotifyOk "a"
    demoSignin demoSignins rfl rfl⟩

/-- Claim C10, confirmed.  The sign-in click handler of `SigninItem` sends
a `get-signed-headers` request whose `signin` field is the constant string
`"selectedAID"`, independent of which record was clicked: the message is
identical for any two records and carries nothing derived from the clicked
record. -/
theorem c10_handleClick_constant (a b : ISignin) :
    handleClick a = handleClick b ∧
    (handleClick a).msgType = "authentication" ∧
    (handleClick a).subtype = "get-signed-headers" ∧
    (handleClick a).dataSignin = "selectedAID" :=
  ⟨rfl, rfl, rfl, rfl⟩
